import Mathlib

/-
  Verification development for the OpenManus agent engine core:
  a shallow embedding of the agent state machine (app/agent/base.py),
  the ReAct step protocol (app/agent/react.py), conversational memory
  and message schema (app/schema.py), the retrying model gateway
  (app/llm.py), the tool registry (app/tool/tool_collection.py),
  tool results (app/tool/base.py) and the planning ledger
  (app/tool/planning.py), together with theorems checking the
  natural-language specification against this embedding.
-/

namespace OpenManus

/-! ### app/schema.py -/

/-- AgentState enumeration (schema.py): IDLE, RUNNING, FINISHED, ERROR. -/
inductive AgentState
  | IDLE
  | RUNNING
  | FINISHED
  | ERROR
deriving DecidableEq, Repr

/-- Rendering of an AgentState as it appears inside Python f-strings
(the exact rendering is Python-version dependent for `(str, Enum)` mixins;
no claim depends on it, only on which error is raised). -/
def stateRepr : AgentState → String
  | .IDLE => "AgentState.IDLE"
  | .RUNNING => "AgentState.RUNNING"
  | .FINISHED => "AgentState.FINISHED"
  | .ERROR => "AgentState.ERROR"

/-- Message roles (the Literal type of Message.role in schema.py). -/
inductive Role
  | system
  | user
  | assistant
  | tool
deriving DecidableEq, Repr

/-- schema.Function: the payload of a tool call. -/
structure FunctionCall where
  name : String
  arguments : String
deriving DecidableEq, Repr

/-- schema.ToolCall. -/
structure ToolCall where
  id : String
  type : String := "function"
  function : FunctionCall
deriving DecidableEq, Repr

/-- schema.Message: a chat message. `none` fields model Python None. -/
structure Message where
  role : Role
  content : Option String := none
  tool_calls : Option (List ToolCall) := none
  name : Option String := none
  tool_call_id : Option String := none
deriving DecidableEq, Repr

/-- Message.user_message. -/
def Message.user_message (content : String) : Message :=
  { role := .user, content := some content }

/-- Message.system_message. -/
def Message.system_message (content : String) : Message :=
  { role := .system, content := some content }

/-- Message.assistant_message (content defaults to None in the source). -/
def Message.assistant_message (content : Option String := none) : Message :=
  { role := .assistant, content := content }

/-- Message.tool_message. -/
def Message.tool_message (content : String) (name : String) (tool_call_id : String) : Message :=
  { role := .tool, content := some content, name := some name, tool_call_id := some tool_call_id }

/-- schema.Memory: ordered message log with a capacity (default 100). -/
structure Memory where
  messages : List Message := []
  max_messages : Nat := 100
deriving DecidableEq, Repr

/-- Python suffix slice `xs[-n:]` for a non-negative n:
`xs[-0:]` is `xs[0:]`, i.e. the WHOLE list, not the empty suffix. -/
def sliceLastPy (n : Nat) (xs : List Message) : List Message :=
  if n = 0 then xs else xs.drop (xs.length - n)

/-- Memory.add_message: append, then truncate to the last `max_messages`
entries via the slice `self.messages[-self.max_messages:]` whenever the
length exceeds the capacity. -/
def Memory.add_message (mem : Memory) (m : Message) : Memory :=
  let ms := mem.messages ++ [m]
  if mem.max_messages < ms.length then
    { mem with messages := sliceLastPy mem.max_messages ms }
  else
    { mem with messages := ms }

/-- Memory.add_messages: extend without bound enforcement (source line 138). -/
def Memory.add_messages (mem : Memory) (msgs : List Message) : Memory :=
  { mem with messages := mem.messages ++ msgs }

/-- Iterating the single-message add over a list, one message at a time
(the scenario quantified over in the spec; not a method of the source). -/
def Memory.addEach (mem : Memory) (msgs : List Message) : Memory :=
  msgs.foldl Memory.add_message mem

/-- Memory.get_recent_messages. -/
def Memory.get_recent_messages (mem : Memory) (n : Nat) : List Message :=
  sliceLastPy n mem.messages

/-! ### app/agent/base.py -/

/-- Python exceptions relevant to the agent core. -/
inductive Exn
  | runtimeError (message : String)
  | valueError (message : String)
  | stepFailure (message : String)
deriving DecidableEq, Repr

/-- BaseAgent observable data (app/agent/base.py). The `llm` handle is an
external client object; its behavior is modelled separately by the gateway
functions below and plays no role in agent-level claims. -/
structure Agent where
  name : String := "agent"
  description : Option String := none
  system_prompt : Option String := none
  next_step_prompt : Option String := none
  memory : Memory := {}
  state : AgentState := AgentState.IDLE
  max_steps : Nat := 10
  current_step : Nat := 0
  duplicate_threshold : Nat := 2
deriving DecidableEq, Repr

/-- BaseAgent.update_memory: role-dispatched message construction followed by
Memory.add_message. The tool branch forwards the kwargs (name, tool_call_id). -/
def Agent.update_memory (a : Agent) (role : Role) (content : String)
    (name : Option String := none) (tool_call_id : Option String := none) : Agent :=
  match role with
  | .user => { a with memory := a.memory.add_message (Message.user_message content) }
  | .system => { a with memory := a.memory.add_message (Message.system_message content) }
  | .assistant => { a with memory := a.memory.add_message (Message.assistant_message (some content)) }
  | .tool =>
    let msg : Message :=
      { role := .tool, content := some content, name := name, tool_call_id := tool_call_id }
    { a with memory := a.memory.add_message msg }

/-- BaseAgent.state_context (lines 69-93): record the previous state, enter
`new_state`, run the body; on an exception set ERROR and re-raise; in all
cases the finally clause restores the previous state. The body is an
arbitrary state transformer returning a value or raising. -/
def stateContext {α : Type} (a : Agent) (new_state : AgentState)
    (body : Agent → Agent × Except Exn α) : Agent × Except Exn α :=
  let previous_state := a.state
  match body { a with state := new_state } with
  | (a1, Except.ok v) => ({ a1 with state := previous_state }, Except.ok v)
  | (a1, Except.error e) =>
    let errored := { a1 with state := AgentState.ERROR }
    ({ errored with state := previous_state }, Except.error e)

/-- The fixed stuck prompt from BaseAgent.handle_stuck_state (the Python
source uses a line continuation, so the literal keeps its leading spaces). -/
def stuck_prompt : String :=
  "        检测到重复响应。请考虑新的策略，避免重复已经尝试过的无效路径。"

/-- Python f-string rendering of an Optional[str]. -/
def pyOptStr : Option String → String
  | none => "None"
  | some s => s

/-- BaseAgent.handle_stuck_state: prepend the stuck prompt to next_step_prompt. -/
def Agent.handle_stuck_state (a : Agent) : Agent :=
  { a with next_step_prompt := some (stuck_prompt ++ "\n" ++ pyOptStr a.next_step_prompt) }

/-- BaseAgent.is_stuck (lines 195-219): needs at least 2 messages; takes the
LAST message (of any role); returns False for missing or empty content
(Python truthiness); otherwise counts, among all earlier messages, the
assistant messages whose content equals the last message's content, and
reports stuck when that count reaches duplicate_threshold. -/
def Agent.is_stuck (a : Agent) : Bool :=
  if a.memory.messages.length < 2 then false
  else
    match a.memory.messages.getLast? with
    | none => false
    | some last =>
      match last.content with
      | none => false
      | some c =>
        if c = "" then false
        else
          decide (a.duplicate_threshold ≤
            a.memory.messages.dropLast.countP
              (fun m => m.role == Role.assistant && m.content == some c))

/-- The while loop of BaseAgent.run (lines 151-165), with explicit fuel.
Each iteration: increment current_step, run the step, handle a stuck state,
append the one-line record; on loop exit append the budget-exhausted notice
when current_step has reached max_steps. With fuel = max_steps - current_step
the fuel never runs out for step functions that do not decrease current_step. -/
def runLoop (stepF : Agent → Agent × Except Exn String) :
    Nat → Agent → List String → Agent × Except Exn (List String)
  | fuel, a, results =>
    if a.current_step < a.max_steps ∧ a.state ≠ AgentState.FINISHED then
      match fuel with
      | 0 => (a, Except.ok results)
      | fuel + 1 =>
        let a1 := { a with current_step := a.current_step + 1 }
        match stepF a1 with
        | (a2, Except.error e) => (a2, Except.error e)
        | (a2, Except.ok step_result) =>
          let a3 := if a2.is_stuck then a2.handle_stuck_state else a2
          runLoop stepF fuel a3
            (results ++ ["步骤 " ++ toString a3.current_step ++ ": " ++ step_result])
    else
      (a,
        Except.ok
          (if a.max_steps ≤ a.current_step then
            results ++ ["终止：达到最大步数（" ++ toString a.max_steps ++ "）"]
          else results))

/-- Joining of the per-step records after the run scope exits (line 167). -/
def joinResults : Except Exn (List String) → Except Exn String
  | Except.error e => Except.error e
  | Except.ok results =>
    Except.ok (if results.isEmpty then "未执行任何步骤" else String.intercalate "\n" results)

/-- BaseAgent.run (lines 128-167): reject when not IDLE (before any memory
mutation); append the initial request when provided and non-empty (Python
truthiness of `if request:`); run the step loop inside
state_context(RUNNING); join the records. -/
def Agent.run (a : Agent) (stepF : Agent → Agent × Except Exn String)
    (request : Option String) : Agent × Except Exn String :=
  if a.state ≠ AgentState.IDLE then
    (a, Except.error (Exn.runtimeError ("无法从状态" ++ stateRepr a.state ++ "启动代理")))
  else
    let a1 :=
      match request with
      | some r => if r ≠ "" then a.update_memory Role.user r else a
      | none => a
    let out := stateContext a1 AgentState.RUNNING
      (fun ar => runLoop stepF (ar.max_steps - ar.current_step) ar [])
    (out.1, joinResults out.2)

/-! ### app/agent/react.py -/

/-- The literal returned by ReActAgent.step when think() decides no action
is needed (source line 65; the inline source comment glosses it as
"Thinking complete - no action needed"). -/
def no_action_text : String := "思考完成 - 无需行动"

/-- Instrumentation: which abstract phases a step invoked, in order. -/
inductive Phase
  | think
  | act
deriving DecidableEq, Repr

/-- ReActAgent.step (lines 54-66): run think(); when it returns False,
return the fixed no-action literal without running act(); otherwise return
act()'s result. think and act are the abstract methods, modelled as
arbitrary agent transformers; the Phase list records which were invoked. -/
def ReActStep (thinkF : Agent → Agent × Bool) (actF : Agent → Agent × String)
    (a : Agent) : (Agent × String) × List Phase :=
  let t := thinkF a
  if !t.2 then ((t.1, no_action_text), [Phase.think])
  else
    let r := actF t.1
    ((r.1, r.2), [Phase.think, Phase.act])

/-! ### app/llm.py -/

/-- Error classes an underlying model call can raise. -/
inductive GwErr
  | apiConnectionError
  | rateLimitError
  | internalServerError
  | authenticationError
  | badRequestError
deriving DecidableEq, Repr

/-- Classification of the error classes per the spec's resilience policy
(network / rate-limit / server errors are transient; auth failures and
malformed requests are not). Used only to state claims; the source's retry
decorator configures no such predicate. -/
def GwErr.isTransient : GwErr → Bool
  | .apiConnectionError => true
  | .rateLimitError => true
  | .internalServerError => true
  | .authenticationError => false
  | .badRequestError => false

/-- tenacity raises RetryError wrapping the last attempt when the stop
condition is reached (the decorators pass no reraise flag). -/
inductive RetryFailure
  | retryError (last : GwErr)
deriving DecidableEq, Repr

/-- The tenacity retry loop for `@retry(wait=..., stop=stop_after_attempt(6))`:
no `retry=` predicate is given, so tenacity's default retries on EVERY
exception. `attempt n` is the outcome of the (n+1)-th underlying call;
`fuel` is the number of retries still allowed after the current attempt;
the first component of the result counts the attempts made. -/
def tenacityGo {α : Type} (attempt : Nat → Except GwErr α) :
    Nat → Nat → Nat × Except RetryFailure α
  | fuel, made =>
    match attempt made, fuel with
    | Except.ok v, _ => (made + 1, Except.ok v)
    | Except.error e, 0 => (made + 1, Except.error (RetryFailure.retryError e))
    | Except.error _, fuel + 1 => tenacityGo attempt fuel (made + 1)

/-- LLM.ask (lines 119-179): the request body is abstracted into the
per-attempt outcome oracle; the decorator allows 6 attempts total. -/
def LLM.ask (attempt : Nat → Except GwErr String) : Nat × Except RetryFailure String :=
  tenacityGo attempt 5 0

/-- LLM.ask_tool (lines 181-241): same decorator, returns the model message. -/
def LLM.ask_tool (attempt : Nat → Except GwErr Message) : Nat × Except RetryFailure Message :=
  tenacityGo attempt 5 0

/-! ### app/tool/base.py -/

/-- A Python value stored in ToolResult.output (typed Any): either text or a
structured payload (modelled by a dict with a given number of entries,
standing for the payloads on which the + operator is not defined). -/
inductive PyVal
  | pstr (s : String)
  | pdict (size : Nat)
deriving DecidableEq, Repr

/-- Python truthiness of a PyVal ("" and the empty dict are falsy). -/
def pyTruthy : PyVal → Bool
  | .pstr s => s != ""
  | .pdict n => n != 0

/-- Python truthiness of an Optional value. -/
def optTruthy : Option PyVal → Bool
  | none => false
  | some v => pyTruthy v

/-- Python truthiness of an Optional[str]. -/
def optStrTruthy : Option String → Bool
  | none => false
  | some s => s != ""

/-- Exceptions arising from ToolResult merging: the + operator raises
TypeError on non-concatenable operands; the combine helper's own guard
raises ValueError. -/
inductive PyExn
  | typeError
  | valueError (message : String)
deriving DecidableEq, Repr

/-- The Python + operator on output values: string + string concatenates;
any combination involving a structured payload raises TypeError. -/
def pyAdd : PyVal → PyVal → Except PyExn PyVal
  | .pstr a, .pstr b => Except.ok (PyVal.pstr (a ++ b))
  | _, _ => Except.error PyExn.typeError

/-- ToolResult (tool/base.py): output is Any, error and system are
Optional[str]. The CLIResult/ToolFailure subclasses add no fields. -/
structure ToolResult where
  output : Option PyVal := none
  error : Option String := none
  system : Option String := none
deriving DecidableEq, Repr

/-- combine_fields of ToolResult.__add__ applied to the Any-typed output
channel: when both sides are truthy, concatenate (raising the ValueError
when concatenation is disabled — dead at every call site since the default
is used); otherwise `field or other_field`. -/
def combineAny : Option PyVal → Option PyVal → Bool → Except PyExn (Option PyVal)
  | some x, some y, concatenate =>
    if pyTruthy x && pyTruthy y then
      if concatenate then (pyAdd x y).map some
      else Except.error (PyExn.valueError "无法合并工具结果")
    else Except.ok (if pyTruthy x then some x else some y)
  | a, b, _ => Except.ok (if optTruthy a then a else b)

/-- combine_fields applied to the Optional[str] channels (error, system):
str + str always concatenates. -/
def combineStr : Option String → Option String → Bool → Except PyExn (Option String)
  | some x, some y, concatenate =>
    if (x != "") && (y != "") then
      if concatenate then Except.ok (some (x ++ y))
      else Except.error (PyExn.valueError "无法合并工具结果")
    else Except.ok (if x != "" then some x else some y)
  | a, b, _ => Except.ok (if optStrTruthy a then a else b)

/-- ToolResult.__add__ (lines 69-95): combine the three fields in order,
each with concatenation enabled (the call sites pass no concatenate flag,
so the default True is used everywhere); the first exception propagates. -/
def ToolResult.add (r1 r2 : ToolResult) : Except PyExn ToolResult :=
  match combineAny r1.output r2.output true with
  | Except.error ex => Except.error ex
  | Except.ok o =>
    match combineStr r1.error r2.error true with
    | Except.error ex => Except.error ex
    | Except.ok e =>
      match combineStr r1.system r2.system true with
      | Except.error ex => Except.error ex
      | Except.ok s => Except.ok { output := o, error := e, system := s }

/-! ### app/tool/tool_collection.py -/

/-- Outcome of running one tool body: a normal ToolResult, a raised
application-level ToolError (exceptions.py), or any other exception
(a defect, which the registry does not catch). -/
inductive ToolOutcome
  | success (r : ToolResult)
  | toolError (message : String)
  | defect (e : Exn)

/-- A registered tool: its advertised name and its execution behavior on
keyword arguments. -/
structure ToolSpec where
  name : String
  behavior : List (String × String) → ToolOutcome

/-- Ordered-dict insertion: replace in place when the key exists, else
append (Python dict semantics). -/
def dictInsert {β : Type} (m : List (String × β)) (k : String) (v : β) : List (String × β) :=
  if (m.lookup k).isSome then m.map (fun p => if p.1 = k then (k, v) else p)
  else m ++ [(k, v)]

/-- Removal of a key (Python dict.pop on a present key). -/
def dictRemove {β : Type} (m : List (String × β)) (k : String) : List (String × β) :=
  m.filter (fun p => p.1 ≠ k)

/-- The tool_map built in ToolCollection.__init__ (dict comprehension:
later tools with the same name replace earlier ones). -/
def tool_map (tools : List ToolSpec) : List (String × ToolSpec) :=
  tools.foldl (fun m t => dictInsert m t.name t) []

/-- ToolCollection.execute (lines 43-63): unknown names yield a
ToolFailure value with only `error` set (no exception); a raised ToolError
is converted to a ToolFailure carrying its message; any other exception
propagates. -/
def ToolCollection.execute (tools : List ToolSpec) (name : String)
    (tool_input : List (String × String)) : Except Exn ToolResult :=
  match (tool_map tools).lookup name with
  | none => Except.ok { error := some ("Tool " ++ name ++ " is invalid") }
  | some tool =>
    match tool.behavior tool_input with
    | .success r => Except.ok r
    | .toolError m => Except.ok { error := some m }
    | .defect e => Except.error e

/-! ### app/tool/planning.py -/

/-- The application-level ToolError of exceptions.py. -/
structure ToolErr where
  message : String
deriving DecidableEq, Repr

/-- A plan record, as stored in PlanningTool.plans. -/
structure Plan where
  plan_id : String
  title : String
  steps : List String
  step_statuses : List String
  step_notes : List String
deriving DecidableEq, Repr

/-- The mutable state of a PlanningTool instance: the ordered plans dict
and the active-plan pointer. -/
structure PlanningState where
  plans : List (String × Plan) := []
  current_plan_id : Option String := none
deriving DecidableEq, Repr

/-- Python truthiness of an Optional[List[str]] (an empty list is falsy). -/
def optListTruthy : Option (List String) → Bool
  | none => false
  | some l => !l.isEmpty

/-- The ASCII apostrophe, kept out of string literals. -/
def sq : String := (Char.ofNat 39).toString

/-- The status → Chinese label map of PlanningTool._format_plan. -/
def statusZh (status : String) : String :=
  if status = "not_started" then "未开始"
  else if status = "in_progress" then "进行中"
  else if status = "completed" then "已完成"
  else if status = "blocked" then "已阻塞"
  else status

/-- The enumerated step lines of _format_plan (zip truncates to the
shortest list, as in Python). -/
def formatStepLines : Nat → List String → List String → List String → List String
  | _, [], _, _ => []
  | _, _ :: _, [], _ => []
  | _, _ :: _, _ :: _, [] => []
  | i, step :: ss, status :: sts, notes :: ns =>
    let line := toString i ++ ". " ++ step ++ " [" ++ statusZh status ++ "]"
    let line := if notes != "" then line ++ "\n   说明：" ++ notes else line
    line :: formatStepLines (i + 1) ss sts ns

/-- The completed-step count used by _format_plan and _list_plans. -/
def completedCount (p : Plan) : Nat :=
  p.step_statuses.countP (fun s => s == "completed")

/-- PlanningTool._format_plan (lines 362-401). -/
def format_plan (current : Option String) (p : Plan) : String :=
  let head := ["计划：" ++ p.title ++ " (ID: " ++ p.plan_id ++ ")"]
  let head := if current = some p.plan_id then head ++ ["状态：当前活动计划"] else head
  let head := head ++
    ["进度：已完成 " ++ toString (completedCount p) ++ "/" ++ toString p.steps.length ++ " 个步骤",
     "\n步骤："]
  String.intercalate "\n" (head ++ formatStepLines 0 p.steps p.step_statuses p.step_notes)

/-- PlanningTool._create_plan (lines 137-175). -/
def create_plan (st : PlanningState) (plan_id title : Option String)
    (steps : Option (List String)) : PlanningState × Except ToolErr ToolResult :=
  if !optStrTruthy plan_id then (st, Except.error ⟨"创建计划命令需要plan_id参数"⟩)
  else if !optStrTruthy title then (st, Except.error ⟨"创建计划命令需要title参数"⟩)
  else if !optListTruthy steps then (st, Except.error ⟨"创建计划命令需要steps参数"⟩)
  else
    let pid := plan_id.getD ""
    if (st.plans.lookup pid).isSome then
      (st, Except.error ⟨"已存在ID为" ++ pid ++ "的计划"⟩)
    else
      let ss := steps.getD []
      let plan : Plan :=
        ⟨pid, title.getD "", ss, List.replicate ss.length "not_started", List.replicate ss.length ""⟩
      let st1 : PlanningState := ⟨dictInsert st.plans pid plan, some pid⟩
      (st1, Except.ok { output := some (PyVal.pstr
        ("已创建计划" ++ sq ++ plan.title ++ sq ++ "（ID: " ++ pid ++ "）\n\n"
          ++ format_plan st1.current_plan_id plan)) })

/-- PlanningTool._update_plan (lines 177-217): optional title replacement;
replacing steps pads new status/notes entries on growth and truncates them
on shrinkage. -/
def update_plan (st : PlanningState) (plan_id title : Option String)
    (steps : Option (List String)) : PlanningState × Except ToolErr ToolResult :=
  if !optStrTruthy plan_id then (st, Except.error ⟨"更新计划命令需要plan_id参数"⟩)
  else
    let pid := plan_id.getD ""
    match st.plans.lookup pid with
    | none => (st, Except.error ⟨"未找到ID为" ++ pid ++ "的计划"⟩)
    | some plan0 =>
      let plan1 := if optStrTruthy title then { plan0 with title := title.getD "" } else plan0
      let plan2 :=
        if optListTruthy steps then
          let ss := steps.getD []
          let old_len := plan1.steps.length
          let new_len := ss.length
          if old_len < new_len then
            { plan1 with
                steps := ss,
                step_statuses := plan1.step_statuses ++ List.replicate (new_len - old_len) "not_started",
                step_notes := plan1.step_notes ++ List.replicate (new_len - old_len) "" }
          else if new_len < old_len then
            { plan1 with
                steps := ss,
                step_statuses := plan1.step_statuses.take new_len,
                step_notes := plan1.step_notes.take new_len }
          else { plan1 with steps := ss }
        else plan1
      let st1 := { st with plans := dictInsert st.plans pid plan2 }
      (st1, Except.ok { output := some (PyVal.pstr
        ("已更新计划" ++ sq ++ plan2.title ++ sq ++ "（ID: " ++ pid ++ "）\n\n"
          ++ format_plan st1.current_plan_id plan2)) })

/-- PlanningTool._list_plans (lines 219-240). -/
def list_plans (st : PlanningState) : PlanningState × Except ToolErr ToolResult :=
  if st.plans.isEmpty then (st, Except.ok { output := some (PyVal.pstr "当前没有任何计划") })
  else
    let lines := st.plans.map (fun pr =>
      let plan := pr.2
      let status := if st.current_plan_id = some plan.plan_id then "（当前活动计划）" else ""
      "- " ++ plan.title ++ " (ID: " ++ plan.plan_id ++ ") - 进度："
        ++ toString (completedCount plan) ++ "/" ++ toString plan.steps.length ++ status)
    (st, Except.ok { output := some (PyVal.pstr
      (String.intercalate "\n" (["当前计划列表："] ++ lines))) })

/-- PlanningTool._get_plan (lines 242-265): resolve the id (falling back to
the active plan), then render the plan. -/
def get_plan (st : PlanningState) (plan_id : Option String) :
    PlanningState × Except ToolErr ToolResult :=
  if !optStrTruthy plan_id && !optStrTruthy st.current_plan_id then
    (st, Except.error ⟨"没有活动计划。请指定plan_id或设置活动计划。"⟩)
  else
    let pid := if optStrTruthy plan_id then plan_id.getD "" else st.current_plan_id.getD ""
    match st.plans.lookup pid with
    | none => (st, Except.error ⟨"未找到ID为" ++ pid ++ "的计划"⟩)
    | some plan => (st, Except.ok { output := some (PyVal.pstr (format_plan st.current_plan_id plan)) })

/-- PlanningTool._set_active_plan (lines 267-289). -/
def set_active_plan (st : PlanningState) (plan_id : Option String) :
    PlanningState × Except ToolErr ToolResult :=
  if !optStrTruthy plan_id then (st, Except.error ⟨"设置活动计划命令需要plan_id参数"⟩)
  else
    let pid := plan_id.getD ""
    match st.plans.lookup pid with
    | none => (st, Except.error ⟨"未找到ID为" ++ pid ++ "的计划"⟩)
    | some plan =>
      let st1 := { st with current_plan_id := some pid }
      (st1, Except.ok { output := some (PyVal.pstr
        ("已将计划" ++ sq ++ plan.title ++ sq ++ "（ID: " ++ pid ++ "）设置为活动计划\n\n"
          ++ format_plan st1.current_plan_id plan)) })

/-- PlanningTool._mark_step (lines 291-336): resolve the plan id, require a
step_index, reject indices outside [0, len(steps)), then update the status
and notes entries that were supplied. -/
def mark_step (st : PlanningState) (plan_id : Option String) (step_index : Option Int)
    (step_status step_notes : Option String) : PlanningState × Except ToolErr ToolResult :=
  if !optStrTruthy plan_id && !optStrTruthy st.current_plan_id then
    (st, Except.error ⟨"没有活动计划。请指定plan_id或设置活动计划。"⟩)
  else
    let pid := if optStrTruthy plan_id then plan_id.getD "" else st.current_plan_id.getD ""
    match st.plans.lookup pid with
    | none => (st, Except.error ⟨"未找到ID为" ++ pid ++ "的计划"⟩)
    | some plan =>
      match step_index with
      | none => (st, Except.error ⟨"标记步骤命令需要step_index参数"⟩)
      | some idx =>
        if idx < 0 ∨ (plan.steps.length : Int) ≤ idx then
          (st, Except.error ⟨"步骤索引" ++ toString idx ++ "超出范围"⟩)
        else
          let i := idx.toNat
          let plan1 :=
            { plan with
                step_statuses :=
                  if optStrTruthy step_status then plan.step_statuses.set i (step_status.getD "")
                  else plan.step_statuses,
                step_notes :=
                  if optStrTruthy step_notes then plan.step_notes.set i (step_notes.getD "")
                  else plan.step_notes }
          let st1 := { st with plans := dictInsert st.plans pid plan1 }
          (st1, Except.ok { output := some (PyVal.pstr
            ("已更新计划" ++ sq ++ plan1.title ++ sq ++ "的步骤" ++ toString idx ++ "\n\n"
              ++ format_plan st1.current_plan_id plan1)) })

/-- PlanningTool._delete_plan (lines 338-360). -/
def delete_plan (st : PlanningState) (plan_id : Option String) :
    PlanningState × Except ToolErr ToolResult :=
  if !optStrTruthy plan_id then (st, Except.error ⟨"删除计划命令需要plan_id参数"⟩)
  else
    let pid := plan_id.getD ""
    match st.plans.lookup pid with
    | none => (st, Except.error ⟨"未找到ID为" ++ pid ++ "的计划"⟩)
    | some plan =>
      let st1 : PlanningState :=
        ⟨dictRemove st.plans pid,
         if st.current_plan_id = some pid then none else st.current_plan_id⟩
      (st1, Except.ok { output := some (PyVal.pstr
        ("已删除计划" ++ sq ++ plan.title ++ sq ++ "（ID: " ++ pid ++ "）")) })

/-- The command enumeration of PlanningTool.execute. -/
inductive PCommand
  | create
  | update
  | list
  | get
  | set_active
  | mark_stepC
  | delete
deriving DecidableEq, Repr

/-- PlanningTool.execute (lines 78-135): dispatch on the command. -/
def planning_execute (st : PlanningState) (command : PCommand)
    (plan_id title : Option String) (steps : Option (List String))
    (step_index : Option Int) (step_status step_notes : Option String) :
    PlanningState × Except ToolErr ToolResult :=
  match command with
  | .create => create_plan st plan_id title steps
  | .update => update_plan st plan_id title steps
  | .list => list_plans st
  | .get => get_plan st plan_id
  | .set_active => set_active_plan st plan_id
  | .mark_stepC => mark_step st plan_id step_index step_status step_notes
  | .delete => delete_plan st plan_id

/-! ### Claim-side definitions -/

/-- Decidable success test for Except values. -/
def isOkE {ε α : Type} : Except ε α → Bool
  | Except.ok _ => true
  | Except.error _ => false

/-- Newest assistant message of a reversed message list, together with the
messages older than it (still reversed). Claim-side helper for the spec's
stuck condition. -/
def newestAssistant : List Message → Option (String × List Message)
  | [] => none
  | m :: rest =>
    if m.role == Role.assistant then
      match m.content with
      | some c => some (c, rest)
      | none => none
    else newestAssistant rest

/-- The stuck condition exactly as the SPEC words it (claim C5): the most
recent ASSISTANT message's content appears as the content of at least
`threshold` earlier assistant messages, the newest one itself excluded.
Stated from the spec's words so it can be compared with Agent.is_stuck,
which is translated from the source. -/
def specIsStuck (msgs : List Message) (threshold : Nat) : Bool :=
  match newestAssistant msgs.reverse with
  | none => false
  | some (c, olderRev) =>
    decide (threshold ≤ olderRev.countP (fun m => m.role == Role.assistant && m.content == some c))

/-- A default-constructed agent (IDLE, empty memory). -/
def agent0 : Agent := {}

/-- An agent observed in the RUNNING state. -/
def agentRunning : Agent := { state := AgentState.RUNNING }

/-- Concrete sample messages used to instantiate quantified theorems. -/
def msgX : Message := Message.assistant_message (some "X")

def msgY : Message := Message.user_message "Y"

def msgA : Message := Message.user_message "a"

def msgB : Message := Message.user_message "b"

/-- A concrete attempt oracle: three transient failures, then success. -/
def attW : Nat → Except GwErr String :=
  fun i => if i < 3 then Except.error GwErr.rateLimitError else Except.ok "done"

/-- The same oracle for the tool-calling operation. -/
def attTW : Nat → Except GwErr Message :=
  fun i =>
    if i < 3 then Except.error GwErr.rateLimitError
    else Except.ok (Message.assistant_message (some "ok"))

/-- C6 scenario, step 1: create("p1","T",["a","b"]) on a fresh ledger. -/
def c6_create : PlanningState × Except ToolErr ToolResult :=
  planning_execute {} PCommand.create (some "p1") (some "T") (some ["a", "b"]) none none none

/-- C6 scenario, step 2: mark_step("p1",0,"completed"). -/
def c6_mark0 : PlanningState × Except ToolErr ToolResult :=
  planning_execute c6_create.1 PCommand.mark_stepC (some "p1") none none (some 0) (some "completed") none

/-- C6 scenario, step 3: update("p1", steps=["a"]). -/
def c6_shrink : PlanningState × Except ToolErr ToolResult :=
  planning_execute c6_mark0.1 PCommand.update (some "p1") none (some ["a"]) none none none

/-- C6 scenario, step 4: mark_step("p1",1,"completed") on the shrunk plan. -/
def c6_markOut : PlanningState × Except ToolErr ToolResult :=
  planning_execute c6_shrink.1 PCommand.mark_stepC (some "p1") none none (some 1) (some "completed") none

/-! ### Helper lemmas -/

theorem stateContext_state {α : Type} (a : Agent) (ns : AgentState)
    (body : Agent → Agent × Except Exn α) :
    (stateContext a ns body).1.state = a.state := by
  unfold stateContext
  rcases h : body { a with state := ns } with ⟨a1, r⟩
  cases r <;> rfl

theorem stateContext_result {α : Type} (a : Agent) (ns : AgentState)
    (body : Agent → Agent × Except Exn α) :
    (stateContext a ns body).2 = (body { a with state := ns }).2 := by
  unfold stateContext
  rcases h : body { a with state := ns } with ⟨a1, r⟩
  cases r <;> rfl

theorem update_memory_state (a : Agent) (role : Role) (content : String) :
    (a.update_memory role content).state = a.state := by
  unfold Agent.update_memory
  cases role <;> rfl

theorem tenacityGo_le {α : Type} (attempt : Nat → Except GwErr α) :
    ∀ (fuel made : Nat), (tenacityGo attempt fuel made).1 ≤ made + fuel + 1 := by
  intro fuel
  induction fuel with
  | zero =>
    intro made
    unfold tenacityGo
    cases attempt made <;> simp
  | succ f ih =>
    intro made
    unfold tenacityGo
    cases h : attempt made with
    | ok v => simp
    | error e =>
      have := ih (made + 1)
      simp only []
      omega

theorem getLast?_append_one (ms : List Message) (x : Message) :
    (ms ++ [x]).getLast? = some x := by
  simp

theorem dropLast_append_one (ms : List Message) (x : Message) :
    (ms ++ [x]).dropLast = ms := by
  simp

theorem add_message_max (mem : Memory) (m : Message) :
    (mem.add_message m).max_messages = mem.max_messages := by
  simp only [Memory.add_message]
  split <;> rfl

theorem drop_one_append (xs ys : List Message) (h : xs ≠ []) :
    xs.drop 1 ++ ys = (xs ++ ys).drop 1 := by
  cases xs with
  | nil => cases h rfl
  | cons x xt => simp

theorem addEach_messages (C : Nat) (hC : 1 ≤ C) :
    ∀ (msgs : List Message) (mem : Memory), mem.max_messages = C →
      mem.messages.length ≤ C →
      (mem.addEach msgs).messages =
        (mem.messages ++ msgs).drop ((mem.messages ++ msgs).length - C) := by
  intro msgs
  induction msgs with
  | nil =>
    intro mem hmax hlen
    have h0 : mem.messages.length - C = 0 := by omega
    simp [Memory.addEach, h0]
  | cons m rest ih =>
    intro mem hmax hlen
    have hstep : Memory.addEach mem (m :: rest) = Memory.addEach (mem.add_message m) rest := rfl
    rw [hstep]
    have hmax1 : (mem.add_message m).max_messages = C := by
      rw [add_message_max, hmax]
    have hlenA : (mem.messages ++ [m]).length = mem.messages.length + 1 := by simp
    by_cases hover : C < mem.messages.length + 1
    · -- the capacity is already full: the add evicts the oldest entry
      have hL : mem.messages.length = C := by omega
      have hlenA2 : (mem.messages ++ [m]).length = C + 1 := by rw [hlenA, hL]
      have hadd : (mem.add_message m).messages = (mem.messages ++ [m]).drop 1 := by
        simp only [Memory.add_message]
        rw [if_pos (by rw [hlenA2, hmax]; omega)]
        unfold sliceLastPy
        rw [if_neg (by omega), hlenA2, hmax]
        have hone : C + 1 - C = 1 := by omega
        rw [hone]
      have hlen1 : (mem.add_message m).messages.length ≤ C := by
        rw [hadd, List.length_drop, hlenA2]
        omega
      have hih := ih (mem.add_message m) hmax1 hlen1
      rw [hih, hadd]
      have hd1 : (mem.messages ++ [m]).drop 1 ++ rest = ((mem.messages ++ [m]) ++ rest).drop 1 :=
        drop_one_append (mem.messages ++ [m]) rest (by simp)
      rw [hd1]
      have hlenAr : ((mem.messages ++ [m]) ++ rest).length = C + 1 + rest.length := by
        rw [List.length_append, hlenA2]
      have hlend : (((mem.messages ++ [m]) ++ rest).drop 1).length - C = rest.length := by
        rw [List.length_drop, hlenAr]
        omega
      rw [hlend, List.drop_drop]
      have e1 : mem.messages ++ m :: rest = (mem.messages ++ [m]) ++ rest := by simp
      rw [e1, hlenAr]
      have hone2 : C + 1 + rest.length - C = rest.length + 1 := by omega
      rw [hone2, Nat.add_comm 1 rest.length]
    · -- still within the capacity: plain append
      have hadd : (mem.add_message m).messages = mem.messages ++ [m] := by
        simp only [Memory.add_message]
        rw [if_neg (by rw [hlenA, hmax]; omega)]
      have hlen1 : (mem.add_message m).messages.length ≤ C := by
        rw [hadd, hlenA]
        omega
      have hih := ih (mem.add_message m) hmax1 hlen1
      rw [hih, hadd]
      have e1 : mem.messages ++ m :: rest = (mem.messages ++ [m]) ++ rest := by simp
      rw [e1]

/-! ### Claim theorems -/

/-- C1: for every agent state held immediately before the run scope enters
RUNNING, the state after the scope exits equals that state again, whatever
the body did (normal completion, a step setting FINISHED, or an exception);
an exception raised by the body is re-raised unchanged; and run() on an
IDLE agent therefore hands back an agent whose state is IDLE, never the
terminal FINISHED/ERROR value. -/
theorem claim_C1_state_restored {α : Type} (a : Agent) (new_state : AgentState)
    (body : Agent → Agent × Except Exn α) (a0 : Agent)
    (stepF : Agent → Agent × Except Exn String) (req : Option String)
    (h0 : a0.state = AgentState.IDLE) :
    (stateContext a new_state body).1.state = a.state
    ∧ (stateContext a new_state body).2 = (body { a with state := new_state }).2
    ∧ (a0.run stepF req).1.state = AgentState.IDLE := by
  refine ⟨stateContext_state a new_state body, stateContext_result a new_state body, ?_⟩
  have hcond : ¬ a0.state ≠ AgentState.IDLE := by simp [h0]
  simp only [Agent.run, if_neg hcond]
  cases req with
  | none => rw [stateContext_state]; exact h0
  | some r =>
    rw [stateContext_state]
    show (if r ≠ "" then a0.update_memory Role.user r else a0).state = AgentState.IDLE
    by_cases hr : r ≠ ""
    · rw [if_pos hr, update_memory_state]
      exact h0
    · rw [if_neg hr]
      exact h0

/-- Witness for C1: a body that sets FINISHED and returns normally, and a
concrete one-step run; the post-scope state is the pre-scope IDLE. -/
theorem claim_C1_witness :
    ((stateContext agent0 AgentState.RUNNING
        (fun x => ({ x with state := AgentState.FINISHED }, Except.ok (0 : Nat)))).1.state
      = agent0.state)
    ∧ ((stateContext agent0 AgentState.RUNNING
        (fun x => ({ x with state := AgentState.FINISHED }, Except.ok (0 : Nat)))).2
      = ((fun x => ({ x with state := AgentState.FINISHED }, Except.ok (0 : Nat)))
          { agent0 with state := AgentState.RUNNING }).2)
    ∧ (Agent.run agent0 (fun x => (x, Except.ok "done")) none).1.state = AgentState.IDLE :=
  claim_C1_state_restored agent0 AgentState.RUNNING
    (fun x => ({ x with state := AgentState.FINISHED }, Except.ok (0 : Nat)))
    agent0 (fun x => (x, Except.ok "done")) none rfl

/-- C7: run() on an agent that is not IDLE fails with the InvalidState
condition (the RuntimeError raised at line 144) and returns the agent
completely unchanged; in particular the initial request is never appended
to Memory. -/
theorem claim_C7_run_invalid_state (a : Agent) (stepF : Agent → Agent × Except Exn String)
    (req : Option String) (h : a.state ≠ AgentState.IDLE) :
    a.run stepF req =
      (a, Except.error (Exn.runtimeError ("无法从状态" ++ stateRepr a.state ++ "启动代理"))) := by
  unfold Agent.run
  rw [if_pos h]

/-- Witness for C7: a RUNNING agent with a pending request; run fails and
the agent (hence its Memory) is exactly the input. -/
theorem claim_C7_witness :
    Agent.run agentRunning (fun x => (x, Except.ok "done")) (some "hello") =
      (agentRunning,
        Except.error (Exn.runtimeError
          ("无法从状态" ++ stateRepr agentRunning.state ++ "启动代理"))) :=
  claim_C7_run_invalid_state agentRunning (fun x => (x, Except.ok "done")) (some "hello")
    (by decide)

/-- C8 counterexample: when think() returns false, the text returned by the
step composition is the source literal, which is not the string
"no action needed" the claim asserts. -/
theorem claim_C8_counterexample :
    (ReActStep (fun x => (x, false)) (fun x => (x, "acted")) agent0).1.2 = no_action_text
    ∧ no_action_text ≠ "no action needed" := by
  exact ⟨rfl, by decide⟩

/-- C8 amended: step() first calls think(); when think() returns false it
returns the fixed literal "思考完成 - 无需行动" (glossed in the source
comment as "Thinking complete - no action needed") without ever calling
act(); when think() returns true it returns act()'s result. -/
theorem claim_C8_amended (thinkF : Agent → Agent × Bool) (actF : Agent → Agent × String)
    (a : Agent) :
    ((thinkF a).2 = false →
      ReActStep thinkF actF a = (((thinkF a).1, no_action_text), [Phase.think]))
    ∧ ((thinkF a).2 = true →
      ReActStep thinkF actF a = (actF (thinkF a).1, [Phase.think, Phase.act])) := by
  constructor <;> intro h <;> simp [ReActStep, h]

/-- Witness for C8: a think that declines and a think that proceeds. -/
theorem claim_C8_witness :
    (ReActStep (fun x => (x, false)) (fun x => (x, "acted")) agent0
      = ((agent0, no_action_text), [Phase.think]))
    ∧ (ReActStep (fun x => (x, true)) (fun x => (x, "acted")) agent0
      = ((agent0, "acted"), [Phase.think, Phase.act])) :=
  ⟨(claim_C8_amended (fun x => (x, false)) (fun x => (x, "acted")) agent0).1 rfl,
   (claim_C8_amended (fun x => (x, true)) (fun x => (x, "acted")) agent0).2 rfl⟩

/-- C4: invoking an unregistered tool name returns normally with a
ToolResult whose error field is set and whose output is unset; a registered
tool that raises the application-level ToolError yields a ToolResult
carrying the error message as data instead of an exception. -/
theorem claim_C4_invoke_containment (tools : List ToolSpec) (name : String)
    (args : List (String × String)) (t : ToolSpec) (m : String) :
    ((tool_map tools).lookup name = none →
      ToolCollection.execute tools name args =
        Except.ok { output := none, error := some ("Tool " ++ name ++ " is invalid"), system := none })
    ∧ ((tool_map tools).lookup name = some t → t.behavior args = ToolOutcome.toolError m →
      ToolCollection.execute tools name args =
        Except.ok { output := none, error := some m, system := none }) := by
  constructor
  · intro h
    simp only [ToolCollection.execute, h]
  · intro h hb
    simp only [ToolCollection.execute, h, hb]

/-- Witness for C4: an empty registry and a registry with one failing tool. -/
theorem claim_C4_witness :
    ToolCollection.execute [] "nonexistent" [] =
      Except.ok { output := none, error := some "Tool nonexistent is invalid", system := none }
    ∧ ToolCollection.execute [⟨"boom", fun _ => ToolOutcome.toolError "kaboom"⟩] "boom" [] =
      Except.ok { output := none, error := some "kaboom", system := none } :=
  ⟨(claim_C4_invoke_containment [] "nonexistent" []
      ⟨"x", fun _ => ToolOutcome.toolError ""⟩ "").1 rfl,
   (claim_C4_invoke_containment [⟨"boom", fun _ => ToolOutcome.toolError "kaboom"⟩] "boom" []
      ⟨"boom", fun _ => ToolOutcome.toolError "kaboom"⟩ "kaboom").2 rfl rfl⟩

/-- C2 counterexample: at capacity 0 the truncation slice `[-0:]` keeps the
whole list, so a single add leaves one message and the length bound
"never exceeds the capacity" fails for C = 0. -/
theorem claim_C2_counterexample :
    ¬ ((Memory.add_message { messages := [], max_messages := 0 } msgA).messages.length
        ≤ ({ messages := [], max_messages := 0 } : Memory).max_messages) := by
  decide

/-- C2 amended: for every capacity C ≥ 1, appending C+1 messages one at a
time to a fresh Memory of capacity C leaves exactly the most recent C
messages in their original oldest-first order (the input minus its first
element), and a single add never leaves more than C messages whatever the
previous contents. -/
theorem claim_C2_amended (C : Nat) (hC : 1 ≤ C) (msgs : List Message)
    (hlen : msgs.length = C + 1) (mem : Memory) (m : Message)
    (hmax : mem.max_messages = C) :
    (Memory.addEach { messages := [], max_messages := C } msgs).messages = msgs.drop 1
    ∧ (mem.add_message m).messages.length ≤ C := by
  constructor
  · have h := addEach_messages C hC msgs { messages := [], max_messages := C } rfl (by simp)
    simp only [List.nil_append] at h
    rw [h, hlen]
    have hone : C + 1 - C = 1 := by omega
    rw [hone]
  · simp only [Memory.add_message]
    have hlenA : (mem.messages ++ [m]).length = mem.messages.length + 1 := by simp
    have hne0 : ¬ (mem.max_messages = 0) := by omega
    split
    · show (sliceLastPy mem.max_messages (mem.messages ++ [m])).length ≤ C
      unfold sliceLastPy
      rw [if_neg hne0]
      simp only [List.length_drop]
      omega
    · show (mem.messages ++ [m]).length ≤ C
      omega

/-- Witness for C2 amended at capacity 1 with two concrete messages. -/
theorem claim_C2_witness :
    (Memory.addEach { messages := [], max_messages := 1 } [msgA, msgB]).messages
      = [msgA, msgB].drop 1
    ∧ (Memory.add_message { messages := [], max_messages := 1 } msgA).messages.length ≤ 1 :=
  claim_C2_amended 1 (by decide) [msgA, msgB] rfl
    { messages := [], max_messages := 1 } msgA rfl

/-- C3 counterexample: the retry decorator has no retry predicate, so a
non-transient authentication failure on the first attempt does NOT
propagate without retry: a second attempt is made (2 attempts recorded)
and its success is returned. -/
theorem claim_C3_counterexample :
    LLM.ask (fun i => if i = 0 then Except.error GwErr.authenticationError
        else Except.ok "answered")
      = (2, Except.ok "answered")
    ∧ GwErr.isTransient GwErr.authenticationError = false := by
  exact ⟨rfl, rfl⟩

/-- C3 amended: ask and ask_tool retry on EVERY exception (transient or
not), make at most 6 attempts total, and three failures of any class
followed by a success yield the successful result with exactly 4 underlying
attempts; on exhaustion a RetryError wrapping the last failure is raised. -/
theorem claim_C3_amended (att att2 : Nat → Except GwErr String)
    (attT attT2 : Nat → Except GwErr Message) (e0 e1 e2 f0 f1 f2 : GwErr)
    (v : String) (w : Message)
    (h0 : att 0 = Except.error e0) (h1 : att 1 = Except.error e1)
    (h2 : att 2 = Except.error e2) (h3 : att 3 = Except.ok v)
    (g0 : attT 0 = Except.error f0) (g1 : attT 1 = Except.error f1)
    (g2 : attT 2 = Except.error f2) (g3 : attT 3 = Except.ok w) :
    LLM.ask att = (4, Except.ok v)
    ∧ LLM.ask_tool attT = (4, Except.ok w)
    ∧ (LLM.ask att2).1 ≤ 6
    ∧ (LLM.ask_tool attT2).1 ≤ 6 := by
  refine ⟨?_, ?_, ?_, ?_⟩
  · simp [LLM.ask, tenacityGo, h0, h1, h2, h3]
  · simp [LLM.ask_tool, tenacityGo, g0, g1, g2, g3]
  · have h := tenacityGo_le att2 5 0
    simpa [LLM.ask] using h
  · have h := tenacityGo_le attT2 5 0
    simpa [LLM.ask_tool] using h

/-- Witness for C3 amended: three rate-limit failures then success. -/
theorem claim_C3_witness :
    LLM.ask attW = (4, Except.ok "done")
    ∧ LLM.ask_tool attTW = (4, Except.ok (Message.assistant_message (some "ok")))
    ∧ (LLM.ask attW).1 ≤ 6
    ∧ (LLM.ask_tool attTW).1 ≤ 6 :=
  claim_C3_amended attW attW attTW attTW
    GwErr.rateLimitError GwErr.rateLimitError GwErr.rateLimitError
    GwErr.rateLimitError GwErr.rateLimitError GwErr.rateLimitError
    "done" (Message.assistant_message (some "ok"))
    rfl rfl rfl rfl rfl rfl rfl rfl

/-- C5 counterexample: the memory ends with a user message "Y" while the
most recent ASSISTANT message's content "X" repeats in 2 ≥ threshold
earlier assistant messages: the spec condition holds but is_stuck() is
false, because the source compares the LAST message of any role. -/
theorem claim_C5_counterexample :
    specIsStuck [msgX, msgX, msgX, msgY] 2 = true
    ∧ Agent.is_stuck
        { memory := { messages := [msgX, msgX, msgX, msgY] }, duplicate_threshold := 2 }
      = false := by
  exact ⟨rfl, rfl⟩

/-- C5 amended: whenever the memory holds at least two messages and its
LAST message (of any role) has non-empty content c, is_stuck() returns
true exactly when at least duplicate_threshold of the earlier messages are
assistant messages with content c; with one fewer such repetition it
returns false. -/
theorem claim_C5_amended (ms : List Message) (last : Message) (c : String) (a : Agent)
    (hmem : a.memory.messages = ms ++ [last]) (hms : ms ≠ [])
    (hc : last.content = some c) (hne : c ≠ "") :
    a.is_stuck = decide (a.duplicate_threshold ≤
      ms.countP (fun m => m.role == Role.assistant && m.content == some c)) := by
  unfold Agent.is_stuck
  rw [hmem]
  have hlen2 : ¬ ((ms ++ [last]).length < 2) := by
    have : ms.length ≠ 0 := fun h => hms (List.eq_nil_of_length_eq_zero h)
    simp only [List.length_append, List.length_cons, List.length_nil]
    omega
  rw [if_neg hlen2]
  simp only [getLast?_append_one, dropLast_append_one, hc]
  rw [if_neg hne]

/-- Witness for C5 amended: three identical assistant messages with
threshold 2; the detector fires. -/
theorem claim_C5_witness :
    Agent.is_stuck { memory := { messages := [msgX, msgX, msgX] }, duplicate_threshold := 2 }
      = decide (2 ≤ [msgX, msgX].countP
          (fun m => m.role == Role.assistant && m.content == some "X")) :=
  claim_C5_amended [msgX, msgX] msgX "X"
    { memory := { messages := [msgX, msgX, msgX] }, duplicate_threshold := 2 }
    rfl (by decide) rfl (by decide)

/-- C9 counterexample: merging two results whose output fields are both
structured payloads fails with the TypeError of the + operator, not with
the dedicated Unmergeable ValueError (that branch is unreachable because
every field is combined with concatenation enabled). -/
theorem claim_C9_counterexample :
    ToolResult.add { output := some (PyVal.pdict 1) } { output := some (PyVal.pdict 1) }
      = Except.error PyExn.typeError
    ∧ (Except.error PyExn.typeError : Except PyExn ToolResult)
      ≠ Except.error (PyExn.valueError "无法合并工具结果") := by
  refine ⟨rfl, fun h => ?_⟩
  exact absurd (Except.error.inj h) (by decide)

/-- C9 amended: the merge concatenates each of the three fields when both
sides are non-empty text; keeps the populated side when only one side is
populated; and when the same field carries structured payloads on both
sides the merge fails with a TypeError from +, the Unmergeable ValueError
branch being dead code. -/
theorem claim_C9_amended (a b c d e f s t : String) (x : PyVal) (m n : Nat)
    (ha : (a != "") = true) (hb : (b != "") = true) (hc : (c != "") = true)
    (hd : (d != "") = true) (he : (e != "") = true) (hf : (f != "") = true)
    (hx : pyTruthy x = true) (hs : (s != "") = true) (ht : (t != "") = true)
    (hm : (m != 0) = true) (hn : (n != 0) = true) :
    ToolResult.add { output := some (PyVal.pstr a), error := some c, system := some e }
        { output := some (PyVal.pstr b), error := some d, system := some f }
      = Except.ok { output := some (PyVal.pstr (a ++ b)), error := some (c ++ d),
                    system := some (e ++ f) }
    ∧ ToolResult.add { output := some x, error := some s, system := some t } {}
      = Except.ok { output := some x, error := some s, system := some t }
    ∧ ToolResult.add {} { output := some x, error := some s, system := some t }
      = Except.ok { output := some x, error := some s, system := some t }
    ∧ ToolResult.add { output := some (PyVal.pdict m) } { output := some (PyVal.pdict n) }
      = Except.error PyExn.typeError := by
  refine ⟨?_, ?_, ?_, ?_⟩
  · simp [ToolResult.add, combineAny, combineStr, pyAdd, pyTruthy, Except.map,
      ha, hb, hc, hd, he, hf]
  · simp [ToolResult.add, combineAny, combineStr, optTruthy, optStrTruthy, Except.map,
      hx, hs, ht]
  · simp [ToolResult.add, combineAny, combineStr, optTruthy, optStrTruthy, Except.map,
      hx, hs, ht]
  · simp [ToolResult.add, combineAny, combineStr, pyAdd, pyTruthy, Except.map, hm, hn]

/-- Witness for C9 amended at concrete strings and payloads. -/
theorem claim_C9_witness :
    ToolResult.add { output := some (PyVal.pstr "o1"), error := some "e1", system := some "s1" }
        { output := some (PyVal.pstr "o2"), error := some "e2", system := some "s2" }
      = Except.ok { output := some (PyVal.pstr ("o1" ++ "o2")), error := some ("e1" ++ "e2"),
                    system := some ("s1" ++ "s2") }
    ∧ ToolResult.add { output := some (PyVal.pstr "o1"), error := some "e1", system := some "s1" } {}
      = Except.ok { output := some (PyVal.pstr "o1"), error := some "e1", system := some "s1" }
    ∧ ToolResult.add {} { output := some (PyVal.pstr "o1"), error := some "e1", system := some "s1" }
      = Except.ok { output := some (PyVal.pstr "o1"), error := some "e1", system := some "s1" }
    ∧ ToolResult.add { output := some (PyVal.pdict 1) } { output := some (PyVal.pdict 2) }
      = Except.error PyExn.typeError :=
  claim_C9_amended "o1" "o2" "e1" "e2" "s1" "s2" "e1" "s1" (PyVal.pstr "o1") 1 2
    rfl rfl rfl rfl rfl rfl rfl rfl rfl rfl rfl

/-- C6: on a fresh ledger, create("p1","T",["a","b"]) then get reports 0 of
2 steps completed; mark_step("p1",0,"completed") then get reports 1 of 2
with step 0 completed; update("p1", steps=["a"]) shrinks the plan to one
step discarding step 1's status and notes; mark_step("p1",1,...) then
fails with the out-of-range ToolError and changes nothing. -/
theorem claim_C6_planning_round_trip :
    isOkE c6_create.2 = true
    ∧ c6_create.1.plans.lookup "p1" =
        some ⟨"p1", "T", ["a", "b"], ["not_started", "not_started"], ["", ""]⟩
    ∧ (planning_execute c6_create.1 PCommand.get (some "p1") none none none none none).2 =
        Except.ok { output := some (PyVal.pstr
          "计划：T (ID: p1)\n状态：当前活动计划\n进度：已完成 0/2 个步骤\n\n步骤：\n0. a [未开始]\n1. b [未开始]") }
    ∧ isOkE c6_mark0.2 = true
    ∧ c6_mark0.1.plans.lookup "p1" =
        some ⟨"p1", "T", ["a", "b"], ["completed", "not_started"], ["", ""]⟩
    ∧ (planning_execute c6_mark0.1 PCommand.get (some "p1") none none none none none).2 =
        Except.ok { output := some (PyVal.pstr
          "计划：T (ID: p1)\n状态：当前活动计划\n进度：已完成 1/2 个步骤\n\n步骤：\n0. a [已完成]\n1. b [未开始]") }
    ∧ isOkE c6_shrink.2 = true
    ∧ c6_shrink.1.plans.lookup "p1" = some ⟨"p1", "T", ["a"], ["completed"], [""]⟩
    ∧ c6_markOut.2 = Except.error ⟨"步骤索引1超出范围"⟩
    ∧ c6_markOut.1 = c6_shrink.1 :=
  ⟨rfl, rfl, rfl, rfl, rfl, rfl, rfl, rfl, rfl, rfl⟩

/-- C10: every planning command that fails (missing field, duplicate id,
unknown id, no active plan, out-of-range index) raises before mutating,
leaving the plans map and the active-plan pointer exactly as before. -/
theorem claim_C10_failure_atomicity (st : PlanningState) (command : PCommand)
    (plan_id title : Option String) (steps : Option (List String)) (step_index : Option Int)
    (step_status step_notes : Option String) (e : ToolErr)
    (h : (planning_execute st command plan_id title steps step_index step_status step_notes).2
        = Except.error e) :
    (planning_execute st command plan_id title steps step_index step_status step_notes).1 = st := by
  cases command <;>
    (simp only [planning_execute, create_plan, update_plan, list_plans, get_plan,
        set_active_plan, mark_step, delete_plan] at h ⊢
     repeat' split at h
     all_goals try simp_all
     all_goals (split <;> rfl))

/-- Witness for C10: deleting an unknown plan id on an empty ledger fails
and the ledger is unchanged. -/
theorem claim_C10_witness :
    (planning_execute {} PCommand.delete (some "p1") none none none none none).1
      = ({} : PlanningState) :=
  claim_C10_failure_atomicity {} PCommand.delete (some "p1") none none none none none
    ⟨"未找到ID为p1的计划"⟩ rfl

end OpenManus
